import Mathlib

/-
  Shallow embedding of the traffic-simulation core of the city-dashboard
  repository (src/frontend/src: models.rs, constants.rs, traffic_light.rs,
  intersection.rs, car.rs, spawner.rs, city.rs).

  Conventions of the embedding:
  * `f32` values are modelled as `ℚ`; the arithmetic the simulation performs
    on them (+, -, *, /, abs, comparisons) is exact on the values in play.
  * The only square root in the source appears in comparisons of the form
    `sqrt(dx^2 + dy^2) < r` with `r ≥ 0`; it is modelled by the equivalent
    comparison `dx^2 + dy^2 < r^2`.
  * The ambient globals `screen_width()` / `screen_height()` are modelled by
    an explicit `Screen` value passed to every function that reads them.
  * The global macroquad RNG is modelled by an explicit `Rng` state: a pair of
    deterministic draw streams plus a counter, threaded through every function
    that calls `rand::gen_range`.
  * `get_time()` (the wall clock read by `CarSpawner::try_spawn`) is modelled
    by an explicit `now : ℚ` input to the spawner and to `City::update`.
  * Rust's `HashMap` iteration (over intersections) is modelled by a `List`
    in a fixed order; `Vec` is `List`.
-/

namespace CityDashboard

/-- `Direction` from models.rs: cardinal directions of travel. -/
inductive Direction where
  | Down
  | Right
  | Up
  | Left
deriving DecidableEq, Repr

/-- `CarLocation` from models.rs: logical location metadata of a car. -/
inductive CarLocation where
  | OnRoad (road_id : ℕ)
  | InIntersection (intersection_id : ℕ)
  | InBlock (block_id : ℕ)
deriving DecidableEq, Repr

/-- The ambient screen dimensions (`screen_width()` / `screen_height()`),
made explicit. -/
structure Screen where
  width : ℚ
  height : ℚ
deriving DecidableEq, Repr

/-- `Car` from models.rs. The cosmetic `color` is modelled as the index into
the `car_colors` palette of spawner.rs. -/
structure Car where
  x_percent : ℚ
  y_percent : ℚ
  direction : Direction
  color : ℕ
  road_index : ℕ
  next_turn : Option Direction
  just_turned : Bool
  in_intersection : Bool
  location : CarLocation
deriving DecidableEq, Repr

/-- `Car::x()`: percentage position to pixels. -/
def Car.x (car : Car) (s : Screen) : ℚ :=
  car.x_percent * s.width

/-- `Car::y()`: percentage position to pixels. -/
def Car.y (car : Car) (s : Screen) : ℚ :=
  car.y_percent * s.height

-- Constants from constants.rs (mod vehicle / traffic_light / visual /
-- road_network), restricted to those the simulation core reads.

def CAR_SPEED : ℚ := 50
def LANE_OFFSET : ℚ := 12
def SAFE_FOLLOWING_DISTANCE : ℚ := 50
def STOP_DISTANCE_MIN : ℚ := 30
def STOP_DISTANCE_MAX : ℚ := 80
def LANE_TOLERANCE : ℚ := 20
def INTERSECTION_RADIUS : ℚ := 40
def CAR_SPAWN_INTERVAL : ℚ := 3/2
def TURN_PROBABILITY : ℚ := 3/10
def GREEN_DURATION : ℚ := 3
def YELLOW_DURATION : ℚ := 1
def RED_DURATION : ℚ := 3
def ROAD_WIDTH : ℚ := 60
def VERTICAL_ROAD_POSITIONS : List ℚ := [15/100, 1/2, 85/100]
def HORIZONTAL_ROAD_POSITIONS : List ℚ := [1/4, 3/4]

-- ============================================================================
-- traffic_light.rs
-- ============================================================================

/-- `LightState` from traffic_light.rs: a light colour carrying its
configured phase duration in seconds. -/
inductive LightState where
  | Red (d : ℚ)
  | Yellow (d : ℚ)
  | Green (d : ℚ)
deriving DecidableEq, Repr

/-- `LightState::duration`. -/
def LightState.duration : LightState → ℚ
  | .Red d => d
  | .Yellow d => d
  | .Green d => d

/-- `LightState::is_red`. -/
def LightState.is_red : LightState → Bool
  | .Red _ => true
  | _ => false

/-- `LightState::to_u8`: 0 = red, 1 = yellow, 2 = green. -/
def LightState.to_u8 : LightState → ℕ
  | .Red _ => 0
  | .Yellow _ => 1
  | .Green _ => 2

/-- `LightState::default_red()`. -/
def LightState.default_red : LightState := .Red RED_DURATION

/-- `LightState::default_green()`. -/
def LightState.default_green : LightState := .Green GREEN_DURATION

/-- `TrafficLight` from traffic_light.rs (the per-axis light used by
`generate_intersections`). -/
structure TrafficLight where
  x_percent : ℚ
  y_percent : ℚ
  controls_vertical : Bool
  direction : Direction
  state : LightState
  time_in_state : ℚ
  id : ℕ
deriving DecidableEq, Repr

/-- `TrafficLight::new`: `time_in_state` starts at the initial state's
duration. -/
def TrafficLight.new (x_percent y_percent : ℚ) (controls_vertical : Bool)
    (direction : Direction) (initial_state : LightState) (id : ℕ) :
    TrafficLight :=
  { x_percent := x_percent
    y_percent := y_percent
    controls_vertical := controls_vertical
    direction := direction
    state := initial_state
    time_in_state := initial_state.duration
    id := id }

/-- `TrafficLight::get_next_state`: Green → Yellow(1) → Red(3) → Green(3). -/
def TrafficLight.get_next_state (l : TrafficLight) : LightState :=
  match l.state with
  | .Green _ => .Yellow YELLOW_DURATION
  | .Yellow _ => .Red RED_DURATION
  | .Red _ => .Green GREEN_DURATION

/-- `TrafficLight::update(dt)`: decrement the timer; on reaching ≤ 0,
transition and reset the timer to the new state's duration. -/
def TrafficLight.update (l : TrafficLight) (dt : ℚ) : TrafficLight :=
  let t := l.time_in_state - dt
  if t ≤ 0 then
    let next := l.get_next_state
    { l with state := next, time_in_state := next.duration }
  else
    { l with time_in_state := t }

/-- `TrafficLight::get_state_u8`. -/
def TrafficLight.get_state_u8 (l : TrafficLight) : ℕ :=
  l.state.to_u8

-- ============================================================================
-- intersection.rs
-- ============================================================================

/-- `Intersection` from intersection.rs: position, id, owned traffic lights
and directional road links (`HashMap<Direction, usize>` modelled as an
association list). -/
structure Intersection where
  x_percent : ℚ
  y_percent : ℚ
  id : ℕ
  lights : List TrafficLight
  connected_roads : List (Direction × ℕ)
deriving DecidableEq, Repr

/-- `Intersection::x()`. -/
def Intersection.x (i : Intersection) (s : Screen) : ℚ :=
  i.x_percent * s.width

/-- `Intersection::y()`. -/
def Intersection.y (i : Intersection) (s : Screen) : ℚ :=
  i.y_percent * s.height

/-- `Intersection::update_lights(dt)`: update every owned light. -/
def Intersection.update_lights (i : Intersection) (dt : ℚ) : Intersection :=
  { i with lights := i.lights.map (fun l => l.update dt) }

/-- `Intersection::get_light_state_for_direction`: first light whose axis
matches the direction; defaults to red (0) when none matches. -/
def Intersection.get_light_state_for_direction (i : Intersection)
    (direction : Direction) : ℕ :=
  let is_vertical := direction = Direction.Down ∨ direction = Direction.Up
  match i.lights.find? (fun l => l.controls_vertical = decide is_vertical) with
  | some l => l.get_state_u8
  | none => 0

/-- One grid point of `generate_intersections`: an intersection at
(x_percent, y_percent) with a vertical light (Down; Green(3) for even ids,
Red(3) for odd) and a horizontal light (Right; the opposite state). -/
def make_grid_intersection (x_percent y_percent : ℚ) (id : ℕ) : Intersection :=
  let vertical_light := TrafficLight.new x_percent y_percent true
    Direction.Down
    (if id % 2 = 0 then LightState.Green 3 else LightState.Red 3) (id * 2)
  let horizontal_light := TrafficLight.new x_percent y_percent false
    Direction.Right
    (if id % 2 = 0 then LightState.Red 3 else LightState.Green 3) (id * 2 + 1)
  { x_percent := x_percent
    y_percent := y_percent
    id := id
    lights := [vertical_light, horizontal_light]
    connected_roads := [] }

/-- `generate_intersections`: the 3 × 2 grid, ids assigned in loop order
(outer loop over vertical road positions, inner over horizontal ones). -/
def generate_intersections : List Intersection :=
  let pairs := VERTICAL_ROAD_POSITIONS.flatMap
    (fun x => HORIZONTAL_ROAD_POSITIONS.map (fun y => (x, y)))
  pairs.enum.map (fun p => make_grid_intersection p.2.1 p.2.2 p.1)

-- ============================================================================
-- The random source (macroquad's global `rand`)
-- ============================================================================

/-- The global macroquad pseudo-random source, modelled as a deterministic
pair of draw streams with a counter (a fixed seed determines the streams):
`nat_draws k n` feeds the k-th `rand::gen_range(0, n)` call and
`unit_draws k` the k-th `rand::gen_range(0.0, 1.0)` call. -/
structure Rng where
  nat_draws : ℕ → ℕ → ℕ
  unit_draws : ℕ → ℚ
  counter : ℕ

/-- `rand::gen_range(0, n)`: a draw in `[0, n)` (reduced mod `n`), advancing
the source. -/
def Rng.gen_range_nat (rng : Rng) (n : ℕ) : ℕ × Rng :=
  (rng.nat_draws rng.counter n % n, { rng with counter := rng.counter + 1 })

/-- `rand::gen_range(0.0, 1.0)`: a draw in `[0, 1)`, advancing the source. -/
def Rng.gen_range_unit (rng : Rng) : ℚ × Rng :=
  (rng.unit_draws rng.counter, { rng with counter := rng.counter + 1 })

-- ============================================================================
-- car.rs: traffic control and collision detection
-- ============================================================================

/-- `check_traffic_light_at_intersection` from car.rs: whether a car must
stop for the light at the given intersection centre (light_state:
0 = red, 1 = yellow, 2 = green). -/
def check_traffic_light_at_intersection (s : Screen) (car : Car)
    (intersection_x intersection_y : ℚ) (light_state : ℕ) : Bool :=
  if car.in_intersection then false
  else
    let car_x := car.x s
    let car_y := car.y s
    match car.direction with
    | Direction.Down =>
      if |car_x - intersection_x| < LANE_TOLERANCE ∧ intersection_y > car_y then
        let distance := intersection_y - car_y
        if distance > STOP_DISTANCE_MIN ∧ distance < STOP_DISTANCE_MAX then
          decide (light_state = 0 ∨ light_state = 1)
        else false
      else false
    | Direction.Up =>
      if |car_x - intersection_x| < LANE_TOLERANCE ∧ intersection_y < car_y then
        let distance := car_y - intersection_y
        if distance > STOP_DISTANCE_MIN ∧ distance < STOP_DISTANCE_MAX then
          decide (light_state = 0 ∨ light_state = 1)
        else false
      else false
    | Direction.Right =>
      if |car_y - intersection_y| < LANE_TOLERANCE ∧ intersection_x > car_x then
        let distance := intersection_x - car_x
        if distance > STOP_DISTANCE_MIN ∧ distance < STOP_DISTANCE_MAX then
          decide (light_state = 0 ∨ light_state = 1)
        else false
      else false
    | Direction.Left =>
      if |car_y - intersection_y| < LANE_TOLERANCE ∧ intersection_x < car_x then
        let distance := car_x - intersection_x
        if distance > STOP_DISTANCE_MIN ∧ distance < STOP_DISTANCE_MAX then
          decide (light_state = 0 ∨ light_state = 1)
        else false
      else false

/-- `check_intersection_occupied` from car.rs: another car is within the
intersection's capture radius.  `other_cars` is always the cloned snapshot,
so the `std::ptr::eq` self-skip never fires; the Euclidean-distance
comparison is modelled squared. -/
def check_intersection_occupied (s : Screen)
    (intersection_x intersection_y : ℚ) (other_cars : List Car) : Bool :=
  other_cars.any (fun other =>
    decide ((other.x s - intersection_x) ^ 2 + (other.y s - intersection_y) ^ 2
      < INTERSECTION_RADIUS ^ 2))

/-- Whether `other` travels opposite to `car` (the `is_opposite` match of
`check_car_collision`). -/
def is_opposite_direction (car other : Car) : Bool :=
  match car.direction with
  | Direction.Down => other.direction = Direction.Up
  | Direction.Up => other.direction = Direction.Down
  | Direction.Right => other.direction = Direction.Left
  | Direction.Left => other.direction = Direction.Right

/-- The loop body of `check_car_collision`, preserving both early exits:
`return true` when a same-direction car ahead is within the safe following
distance, and `return false` when an opposite-direction car on the same road
is within the safe distance (the deliberate no-op branch).  The source sets
the same-direction gap to `f32::MAX` when laterally misaligned, which never
passes `distance < safe_distance`; the misaligned case therefore simply
fails the conjunction here. -/
def check_car_collision_loop (s : Screen) (car : Car) : List Car → Bool
  | [] => false
  | other :: rest =>
    if other.in_intersection then check_car_collision_loop s car rest
    else
      let car_x := car.x s
      let car_y := car.y s
      let other_x := other.x s
      let other_y := other.y s
      let same_dir_blocked : Bool :=
        decide (car.direction = other.direction) &&
        (match car.direction with
         | Direction.Down =>
           decide (|car_x - other_x| < 10 ∧ 0 < other_y - car_y ∧
             other_y - car_y < SAFE_FOLLOWING_DISTANCE)
         | Direction.Up =>
           decide (|car_x - other_x| < 10 ∧ 0 < car_y - other_y ∧
             car_y - other_y < SAFE_FOLLOWING_DISTANCE)
         | Direction.Right =>
           decide (|car_y - other_y| < 10 ∧ 0 < other_x - car_x ∧
             other_x - car_x < SAFE_FOLLOWING_DISTANCE)
         | Direction.Left =>
           decide (|car_y - other_y| < 10 ∧ 0 < car_x - other_x ∧
             car_x - other_x < SAFE_FOLLOWING_DISTANCE))
      if same_dir_blocked then true
      else
        let opposite_close : Bool :=
          is_opposite_direction car other &&
          (match car.direction with
           | Direction.Down | Direction.Up =>
             decide (|car_x - other_x| < ROAD_WIDTH / 2 ∧
               |car_y - other_y| < SAFE_FOLLOWING_DISTANCE)
           | Direction.Right | Direction.Left =>
             decide (|car_y - other_y| < ROAD_WIDTH / 2 ∧
               |car_x - other_x| < SAFE_FOLLOWING_DISTANCE))
        if opposite_close then false
        else check_car_collision_loop s car rest

/-- `check_car_collision` from car.rs: cars inside an intersection never
stop; otherwise scan the snapshot in order. -/
def check_car_collision (s : Screen) (car : Car) (other_cars : List Car) :
    Bool :=
  if car.in_intersection then false
  else check_car_collision_loop s car other_cars

/-- The `approaching_intersection` condition of `should_car_stop`: laterally
within 20 px of the intersection and strictly ahead by less than 50 px. -/
def approaching_intersection (s : Screen) (car : Car) (int_x int_y : ℚ) :
    Bool :=
  let car_x := car.x s
  let car_y := car.y s
  match car.direction with
  | Direction.Down =>
    |car_x - int_x| < 20 ∧ int_y > car_y ∧ int_y - car_y < 50
  | Direction.Up =>
    |car_x - int_x| < 20 ∧ int_y < car_y ∧ car_y - int_y < 50
  | Direction.Right =>
    |car_y - int_y| < 20 ∧ int_x > car_x ∧ int_x - car_x < 50
  | Direction.Left =>
    |car_y - int_y| < 20 ∧ int_x < car_x ∧ car_x - int_x < 50

/-- The intersection loop of `should_car_stop`, with its two early
`return true` exits (traffic light, occupancy) and the final fall-through to
`check_car_collision`. -/
def should_car_stop_loop (s : Screen) (car : Car) (other_cars : List Car)
    (all_lights_red : Bool) : List Intersection → Bool
  | [] => check_car_collision s car other_cars
  | i :: rest =>
    let int_x := i.x s
    let int_y := i.y s
    let light_state :=
      if all_lights_red then 0
      else i.get_light_state_for_direction car.direction
    if check_traffic_light_at_intersection s car int_x int_y light_state then
      true
    else if !car.in_intersection ∧ approaching_intersection s car int_x int_y ∧
        check_intersection_occupied s int_x int_y other_cars then
      true
    else should_car_stop_loop s car other_cars all_lights_red rest

/-- `should_car_stop` from car.rs. -/
def should_car_stop (s : Screen) (car : Car) (intersections : List Intersection)
    (other_cars : List Car) (all_lights_red : Bool) : Bool :=
  should_car_stop_loop s car other_cars all_lights_red intersections

-- ============================================================================
-- car.rs: movement helpers and the main update loop
-- ============================================================================

/-- `plan_next_turn` from car.rs: with probability TURN_PROBABILITY pick a
perpendicular direction uniformly, else go straight. -/
def plan_next_turn (rng : Rng) (current_direction : Direction) :
    Option Direction × Rng :=
  let (p, rng1) := rng.gen_range_unit
  if p < TURN_PROBABILITY then
    let (k, rng2) := rng1.gen_range_nat 2
    match current_direction with
    | Direction.Down | Direction.Up =>
      (if k = 0 then some Direction.Right else some Direction.Left, rng2)
    | Direction.Right | Direction.Left =>
      (if k = 0 then some Direction.Down else some Direction.Up, rng2)
  else
    (none, rng1)

/-- `handle_car_turn` from car.rs: when at the intersection centre with a
planned turn and not `just_turned`, execute the turn — set the new direction,
snap the off-axis coordinate to the lane for the new direction, draw the next
turn, and set `just_turned`.  Returns (car, rng, turned). -/
def handle_car_turn (s : Screen) (rng : Rng) (car : Car) (i : Intersection)
    (at_intersection_center : Bool) : Car × Rng × Bool :=
  match at_intersection_center, car.next_turn, car.just_turned with
  | true, some new_direction, false =>
    let car1 :=
      match new_direction with
      | Direction.Down =>
        { car with direction := new_direction,
                   x_percent := i.x_percent - LANE_OFFSET / s.width,
                   y_percent := i.y_percent }
      | Direction.Up =>
        { car with direction := new_direction,
                   x_percent := i.x_percent + LANE_OFFSET / s.width,
                   y_percent := i.y_percent }
      | Direction.Right =>
        { car with direction := new_direction,
                   x_percent := i.x_percent,
                   y_percent := i.y_percent + LANE_OFFSET / s.height }
      | Direction.Left =>
        { car with direction := new_direction,
                   x_percent := i.x_percent,
                   y_percent := i.y_percent - LANE_OFFSET / s.height }
    let r := plan_next_turn rng new_direction
    ({ car1 with next_turn := r.1, just_turned := true }, r.2, true)
  | _, _, _ => (car, rng, false)

/-- `move_car` from car.rs: advance along the direction of travel by
CAR_SPEED · dt, converted to a fraction of the screen dimension. -/
def move_car (s : Screen) (car : Car) (dt : ℚ) : Car :=
  match car.direction with
  | Direction.Down =>
    { car with y_percent := car.y_percent + CAR_SPEED * dt / s.height }
  | Direction.Up =>
    { car with y_percent := car.y_percent - CAR_SPEED * dt / s.height }
  | Direction.Right =>
    { car with x_percent := car.x_percent + CAR_SPEED * dt / s.width }
  | Direction.Left =>
    { car with x_percent := car.x_percent - CAR_SPEED * dt / s.width }

/-- `is_car_on_screen` from car.rs: within the viewport with a 0.1 margin. -/
def is_car_on_screen (car : Car) : Bool :=
  car.x_percent > -1/10 ∧ car.x_percent < 11/10 ∧
    car.y_percent > -1/10 ∧ car.y_percent < 11/10

/-- The intersection loop of `update_car_at_intersection`.  `car_x`/`car_y`
are read once before the loop in the source; a turn returns immediately, so
they stay valid.  Returns (car, rng, at_any_intersection, turned). -/
def update_car_at_intersection_loop (s : Screen) (car_x car_y : ℚ)
    (rng : Rng) (car : Car) (at_any : Bool) :
    List Intersection → Car × Rng × Bool × Bool
  | [] => (car, rng, at_any, false)
  | i :: rest =>
    let int_x := i.x s
    let int_y := i.y s
    let at_intersection : Bool :=
      decide ((car_x - int_x) ^ 2 + (car_y - int_y) ^ 2
        < INTERSECTION_RADIUS ^ 2)
    let car1 :=
      if at_intersection then { car with in_intersection := true } else car
    let at_any1 := at_any || at_intersection
    let at_intersection_center : Bool :=
      match car1.direction with
      | Direction.Down | Direction.Up =>
        decide (|car_x - int_x| < 15 ∧ |car_y - int_y| < 10)
      | Direction.Right | Direction.Left =>
        decide (|car_y - int_y| < 15 ∧ |car_x - int_x| < 10)
    let r := handle_car_turn s rng car1 i at_intersection_center
    if r.2.2 then (r.1, r.2.1, at_any1, true)
    else update_car_at_intersection_loop s car_x car_y r.2.1 r.1 at_any1 rest

/-- `update_car_at_intersection` from car.rs: the in-intersection capture
test (Euclidean distance modelled squared) and the turn dispatch. -/
def update_car_at_intersection (s : Screen) (rng : Rng) (car : Car)
    (intersections : List Intersection) : Car × Rng × Bool × Bool :=
  update_car_at_intersection_loop s (car.x s) (car.y s) rng car false
    intersections

/-- The body of the `retain_mut` closure of `update_cars`: update the
intersection state (possibly turning), clear flags when at no intersection,
decide stopping against the snapshot, and move when not stopped. -/
def step_car (s : Screen) (intersections : List Intersection) (dt : ℚ)
    (all_lights_red : Bool) (cars_copy : List Car) (rng : Rng) (car : Car) :
    Car × Rng :=
  let r := update_car_at_intersection s rng car intersections
  let car1 := r.1
  let rng1 := r.2.1
  let at_any_intersection := r.2.2.1
  let car2 :=
    if !at_any_intersection then
      { car1 with just_turned := false, in_intersection := false }
    else car1
  let stop := should_car_stop s car2 intersections cars_copy all_lights_red
  let car3 := if !stop then move_car s car2 dt else car2
  (car3, rng1)

/-- Step every car in order, threading the random source. -/
def step_cars (s : Screen) (intersections : List Intersection) (dt : ℚ)
    (all_lights_red : Bool) (cars_copy : List Car) (rng : Rng) :
    List Car → List Car × Rng
  | [] => ([], rng)
  | car :: rest =>
    let (car1, rng1) :=
      step_car s intersections dt all_lights_red cars_copy rng car
    let (rest1, rng2) :=
      step_cars s intersections dt all_lights_red cars_copy rng1 rest
    (car1 :: rest1, rng2)

/-- `update_cars` from car.rs: snapshot the pool, step each car against the
snapshot, and retain exactly the cars still on screen.  `retain_mut`
interleaves the stepping and the retention test; since each car's step
depends only on the snapshot and the random source, this equals stepping all
cars and then filtering. -/
def update_cars (s : Screen) (rng : Rng) (cars : List Car)
    (intersections : List Intersection) (dt : ℚ) (all_lights_red : Bool) :
    List Car × Rng :=
  let cars_copy := cars
  let r := step_cars s intersections dt all_lights_red cars_copy rng cars
  (r.1.filter (fun car => is_car_on_screen car), r.2)

-- ============================================================================
-- spawner.rs
-- ============================================================================

/-- `CarSpawner` from spawner.rs: interval-gated spawn state. -/
structure CarSpawner where
  last_spawn_time : ℚ
  spawn_interval : ℚ
deriving DecidableEq, Repr

/-- `CarSpawner::new`. -/
def CarSpawner.new (interval : ℚ) : CarSpawner :=
  { last_spawn_time := 0, spawn_interval := interval }

/-- `spawn_car` from spawner.rs: push one car at a random road edge, drawn
from the random source in the source's order (orientation, colour, road,
polarity, turn).  The colour is kept as the palette index. -/
def spawn_car (s : Screen) (rng : Rng) (cars : List Car) : List Car × Rng :=
  let (v, rng1) := rng.gen_range_nat 2
  let is_vertical := v = 0
  let (color, rng2) := rng1.gen_range_nat 5
  if is_vertical then
    let (road_index, rng3) := rng2.gen_range_nat VERTICAL_ROAD_POSITIONS.length
    let road_center_percent := VERTICAL_ROAD_POSITIONS.getD road_index 0
    let (d, rng4) := rng3.gen_range_nat 2
    let going_down := d = 0
    let lane_offset_percent := LANE_OFFSET / s.width
    let x_percent :=
      if going_down then road_center_percent - lane_offset_percent
      else road_center_percent + lane_offset_percent
    let (p, rng5) := rng4.gen_range_unit
    let (next_turn, rng6) :=
      if p < TURN_PROBABILITY then
        let (k, rng6) := rng5.gen_range_nat 2
        (if k = 0 then some Direction.Right else some Direction.Left, rng6)
      else (none, rng5)
    (cars ++ [{
      x_percent := x_percent
      y_percent := if going_down then -5/100 else 105/100
      direction := if going_down then Direction.Down else Direction.Up
      color := color
      road_index := road_index
      next_turn := next_turn
      just_turned := false
      in_intersection := false
      location := CarLocation.OnRoad road_index }], rng6)
  else
    let (road_index, rng3) :=
      rng2.gen_range_nat HORIZONTAL_ROAD_POSITIONS.length
    let road_center_percent := HORIZONTAL_ROAD_POSITIONS.getD road_index 0
    let (d, rng4) := rng3.gen_range_nat 2
    let going_right := d = 0
    let lane_offset_percent := LANE_OFFSET / s.height
    let y_percent :=
      if going_right then road_center_percent + lane_offset_percent
      else road_center_percent - lane_offset_percent
    let (p, rng5) := rng4.gen_range_unit
    let (next_turn, rng6) :=
      if p < TURN_PROBABILITY then
        let (k, rng6) := rng5.gen_range_nat 2
        (if k = 0 then some Direction.Down else some Direction.Up, rng6)
      else (none, rng5)
    (cars ++ [{
      x_percent := if going_right then -5/100 else 105/100
      y_percent := y_percent
      direction := if going_right then Direction.Right else Direction.Left
      color := color
      road_index := road_index + 3
      next_turn := next_turn
      just_turned := false
      in_intersection := false
      location := CarLocation.OnRoad (road_index + 3) }], rng6)

/-- `CarSpawner::try_spawn`: spawn when more than the interval has elapsed
since the last spawn.  `current_time` is the `get_time()` wall-clock
reading, made an explicit input.  Returns (spawner, cars, rng). -/
def CarSpawner.try_spawn (spawner : CarSpawner) (s : Screen)
    (current_time : ℚ) (cars : List Car) (rng : Rng) :
    CarSpawner × List Car × Rng :=
  if current_time - spawner.last_spawn_time > spawner.spawn_interval then
    let (cars1, rng1) := spawn_car s rng cars
    ({ spawner with last_spawn_time := current_time }, cars1, rng1)
  else
    (spawner, cars, rng)

-- ============================================================================
-- city.rs
-- ============================================================================

/-- `City` from city.rs, restricted to the fields its `update` path touches:
`roads` and `blocks` are never read or written by `update`, so they are not
modelled.  The global random source is carried in the state to make the
threading explicit. -/
structure City where
  intersections : List Intersection
  cars : List Car
  car_spawner : CarSpawner
  rng : Rng

/-- `City::spawn_cars`, with the `get_time()` reading explicit. -/
def City.spawn_cars (c : City) (s : Screen) (now : ℚ) : City :=
  let r := c.car_spawner.try_spawn s now c.cars c.rng
  { c with car_spawner := r.1, cars := r.2.1, rng := r.2.2 }

/-- `City::update_traffic_lights`: update the lights of every
intersection. -/
def City.update_traffic_lights (c : City) (dt : ℚ) : City :=
  { c with intersections := c.intersections.map (fun i => i.update_lights dt) }

/-- `City::update_cars`: delegate to the car module's update over the
intersection list. -/
def City.update_cars (c : City) (s : Screen) (dt : ℚ)
    (all_lights_red : Bool) : City :=
  let r :=
    CityDashboard.update_cars s c.rng c.cars c.intersections dt all_lights_red
  { c with cars := r.1, rng := r.2 }

/-- `City::update`: spawn, then advance lights, then advance cars. -/
def City.update (c : City) (s : Screen) (now dt : ℚ)
    (all_lights_red : Bool) : City :=
  (((c.spawn_cars s now).update_traffic_lights dt).update_cars s dt
    all_lights_red)

-- ============================================================================
-- Derived notions used to state the properties
-- ============================================================================

/-- The car's signed distance to the intersection centre along its direction
of travel (the per-direction `distance` expression of
`check_traffic_light_at_intersection`). -/
def along_distance (s : Screen) (car : Car) (int_x int_y : ℚ) : ℚ :=
  match car.direction with
  | Direction.Down => int_y - car.y s
  | Direction.Up => car.y s - int_y
  | Direction.Right => int_x - car.x s
  | Direction.Left => car.x s - int_x

/-- The car's perpendicular offset from the intersection centre (the
per-direction lane-alignment expression of
`check_traffic_light_at_intersection`). -/
def lateral_offset (s : Screen) (car : Car) (int_x int_y : ℚ) : ℚ :=
  match car.direction with
  | Direction.Down | Direction.Up => |car.x s - int_x|
  | Direction.Right | Direction.Left => |car.y s - int_y|

/-- The left-hand-traffic lane coordinate for a direction of travel, relative
to a centreline `center` (in fractional coordinates): the rule shared by
`handle_car_turn` and `spawn_car`. -/
def lane_coord (s : Screen) (d : Direction) (center : ℚ) : ℚ :=
  match d with
  | Direction.Down => center - LANE_OFFSET / s.width
  | Direction.Up => center + LANE_OFFSET / s.width
  | Direction.Right => center + LANE_OFFSET / s.height
  | Direction.Left => center - LANE_OFFSET / s.height

/-- The car's off-axis (perpendicular-to-travel) fractional coordinate. -/
def off_axis_coord (car : Car) : ℚ :=
  match car.direction with
  | Direction.Down | Direction.Up => car.x_percent
  | Direction.Right | Direction.Left => car.y_percent

/-- A run of `City::update` steps: each element of `steps` supplies the
wall-clock reading, the frame delta and the emergency-stop flag of one
call. -/
inductive CityRun (s : Screen) : City → List (ℚ × ℚ × Bool) → City → Prop where
  | nil : ∀ c, CityRun s c [] c
  | step : ∀ c (now dt : ℚ) (b : Bool) rest d,
      CityRun s (c.update s now dt b) rest d →
      CityRun s c ((now, dt, b) :: rest) d

-- ============================================================================
-- Concrete fixtures (used by counterexamples and witnesses)
-- ============================================================================

/-- A 100 × 100 screen: fractional coordinates scale by 100 to pixels. -/
def test_screen : Screen := ⟨100, 100⟩

/-- A concrete seeded random source: every drawn value is 0. -/
def zero_rng : Rng := ⟨fun _ _ => 0, fun _ => 0, 0⟩

/-- The startup city: the 3 × 2 grid of `generate_intersections`, no cars, a
fresh spawner, a concrete seeded random source. -/
def initial_city : City :=
  { intersections := generate_intersections
    cars := []
    car_spawner := CarSpawner.new CAR_SPAWN_INTERVAL
    rng := zero_rng }

/-- A car heading Down in the lane of x = 50 px, 30 px before the
intersection centre (50, 50) on `test_screen`. -/
def car_at_30 : Car :=
  { x_percent := 1/2
    y_percent := 1/5
    direction := Direction.Down
    color := 0
    road_index := 0
    next_turn := none
    just_turned := false
    in_intersection := false
    location := CarLocation.OnRoad 0 }

/-- The same car 50 px before the intersection centre (50, 50). -/
def car_at_50 : Car := { car_at_30 with y_percent := 0 }

/-- A free-moving Down car at (50, 50) px with no intersection near. -/
def car_mid : Car := { car_at_30 with y_percent := 1/2 }

/-- C9 pool: the checking car, heading Down at (50, 10) px. -/
def car_c9 : Car := { car_at_30 with y_percent := 1/10 }

/-- C9 pool: a same-direction car 30 px ahead at (50, 40) px. -/
def car_ahead : Car := { car_at_30 with y_percent := 2/5 }

/-- C9 pool: an oncoming (Up) car on the same road at (50, 30) px. -/
def car_oncoming : Car :=
  { car_at_30 with y_percent := 3/10, direction := Direction.Up }

/-- A car already inside an intersection. -/
def car_inside : Car := { car_at_30 with in_intersection := true }

/-- An intersection at (50, 75) px on `test_screen`, 55 px from `car_at_30`,
with the grid lights of an even id. -/
def far_intersection : Intersection := make_grid_intersection (1/2) (3/4) 0

/-- A concrete traffic light in Green(3) with 3 s remaining. -/
def test_light : TrafficLight :=
  TrafficLight.new (1/2) (1/4) true Direction.Down (LightState.Green 3) 0

/-- A car about to turn left. -/
def car_turn_left : Car := { car_at_30 with next_turn := some Direction.Left }

-- ============================================================================
-- Theorems
-- ============================================================================

/-- C1: the light-exclusivity invariant fails on the code.  In the state
reached from the `generate_intersections` grid by a single `City::update`
with positive dt = 3.5 (wall clock at 1 s, so no spawn interferes), some
intersection has both its vertical-controlling and horizontal-controlling
light non-Red simultaneously: each intersection runs two independent 7 s
timers whose non-Red window (Green 3 s + Yellow 1 s) is longer than the Red
window (3 s), so the initial Green/Red stagger cannot keep them exclusive —
contradicting the code's own documentation that the two lights are
coordinated. -/
theorem C1_both_lights_non_red_reachable :
    ∃ i ∈ (initial_city.update test_screen 1 (7/2) false).intersections,
      ∃ lv ∈ i.lights, ∃ lh ∈ i.lights,
        lv.controls_vertical = true ∧ lh.controls_vertical = false ∧
        lv.state.is_red = false ∧ lh.state.is_red = false := by
  with_unfolding_all decide

/-- C9: an oncoming car earlier in the snapshot suppresses a
following-distance stop.  Against the pool containing only `car_ahead`
(same direction, 30 px ahead, within the 50 px safe distance)
`check_car_collision` demands a stop; adding `car_oncoming` (opposite
direction, same road, within 50 px) before it makes the opposite-direction
branch return `false` immediately, skipping `car_ahead`. -/
theorem C9_oncoming_suppresses_following_stop :
    check_car_collision test_screen car_c9 [car_ahead] = true ∧
    check_car_collision test_screen car_c9 [car_oncoming, car_ahead] =
      false := by
  with_unfolding_all decide

/-- C4 counterexample: at a distance of exactly STOP_DISTANCE_MIN = 30 px —
inside the claim's closed interval [30, 80] — with the light Red, a
laterally aligned, not-in-intersection car is NOT told to stop: the source
requires `distance > 30` strictly. -/
theorem C4_closed_interval_counterexample :
    car_at_30.in_intersection = false ∧
    lateral_offset test_screen car_at_30 50 50 < LANE_TOLERANCE ∧
    along_distance test_screen car_at_30 50 50 = STOP_DISTANCE_MIN ∧
    check_traffic_light_at_intersection test_screen car_at_30 50 50 0 =
      false := by
  with_unfolding_all decide

/-- C5 counterexample: with dt = −1 the position of a non-stopped car is not
left unchanged — a Down-heading car at y = 1/2 is moved backwards (against
its direction of travel) to y = 0 by `update_cars`, since `move_car` applies
CAR_SPEED · dt with no sign guard. -/
theorem C5_negative_dt_moves_car_backwards :
    car_mid.direction = Direction.Down ∧ car_mid.y_percent = 1/2 ∧
    (update_cars test_screen zero_rng [car_mid] [] (-1) false).1.map
      (fun c => c.y_percent) = [0] := by
  with_unfolding_all decide

/-- C6 counterexample: two runs of a single `City::update` call with the
same dt (1/100), the same emergency flag (false) and the identical seeded
random source, but different `get_time()` wall-clock readings (2 s vs 1 s),
produce different car pools: the spawner gate compares the wall clock, not
accumulated dt, against the spawn interval. -/
theorem C6_wall_clock_breaks_replay :
    (initial_city.update test_screen 2 (1/100) false).cars.length = 1 ∧
    (initial_city.update test_screen 1 (1/100) false).cars.length = 0 := by
  with_unfolding_all decide

/-- C2: a car with `in_intersection` set is never stopped by the
traffic-light check (it returns false for every intersection and light
state) nor by the occupancy check (skipped for such a car):
`should_car_stop` reduces to the car-collision check alone. -/
theorem C2_in_intersection_no_light_or_occupancy_stop (s : Screen)
    (car : Car) (intersections : List Intersection) (other_cars : List Car)
    (all_lights_red : Bool) (h : car.in_intersection = true) :
    (∀ int_x int_y light_state,
      check_traffic_light_at_intersection s car int_x int_y light_state =
        false) ∧
    should_car_stop s car intersections other_cars all_lights_red =
      check_car_collision s car other_cars := by
  have hlight : ∀ int_x int_y light_state,
      check_traffic_light_at_intersection s car int_x int_y light_state =
        false := by
    intro int_x int_y light_state
    simp [check_traffic_light_at_intersection, h]
  refine ⟨hlight, ?_⟩
  show should_car_stop_loop s car other_cars all_lights_red intersections = _
  induction intersections with
  | nil => rfl
  | cons i rest ih =>
    rw [should_car_stop_loop, hlight]
    simp [h, ih]

/-- C2 witness: the in-intersection car `car_inside`, the grid
intersections, an empty snapshot and the normal flag. -/
theorem C2_witness :
    check_traffic_light_at_intersection test_screen car_inside 50 50 0 =
      false ∧
    should_car_stop test_screen car_inside generate_intersections [] false =
      check_car_collision test_screen car_inside [] := by
  have h := C2_in_intersection_no_light_or_occupancy_stop test_screen
    car_inside generate_intersections [] false rfl
  exact ⟨h.1 50 50 0, h.2⟩

/-- Lights evolve independently of cars, spawner, random source and
emergency flag: one `City::update` maps every intersection through
`update_lights dt`. -/
theorem update_intersections_eq (c : City) (s : Screen) (now dt : ℚ)
    (b : Bool) :
    (c.update s now dt b).intersections =
      c.intersections.map (fun i => i.update_lights dt) := rfl

/-- The intersections after a run depend only on the dt components of the
steps. -/
theorem run_intersections_eq (s : Screen) (c d : City)
    (steps : List (ℚ × ℚ × Bool)) (h : CityRun s c steps d) :
    d.intersections =
      (steps.map (fun st => st.2.1)).foldl
        (fun ints dt => ints.map (fun i => i.update_lights dt))
        c.intersections := by
  induction h with
  | nil c0 => rfl
  | step c0 now dt b rest d0 hrest ih =>
    simpa [update_intersections_eq] using ih

/-- C3: the force-red override is frame-preserving on the lights.  A single
`City::update` with the flag set leaves every traffic light's state and
remaining time exactly equal to the flag-clear update, and across whole
runs that agree on wall-clock readings and dt values — with arbitrary
per-step emergency flags — the lights end identical, so normal operation
resumes exactly where it would have been once the override is lifted. -/
theorem C3_force_red_preserves_lights (s : Screen) (c d1 d2 : City)
    (steps1 steps2 : List (ℚ × ℚ × Bool))
    (h1 : CityRun s c steps1 d1) (h2 : CityRun s c steps2 d2)
    (hsame : steps1.map (fun st => (st.1, st.2.1)) =
      steps2.map (fun st => (st.1, st.2.1))) :
    (∀ now dt, (c.update s now dt true).intersections =
      (c.update s now dt false).intersections) ∧
    d1.intersections = d2.intersections := by
  refine ⟨fun now dt => rfl, ?_⟩
  have hdt : steps1.map (fun st => st.2.1) = steps2.map (fun st => st.2.1) := by
    have := congrArg (List.map Prod.snd) hsame
    simpa [List.map_map, Function.comp] using this
  rw [run_intersections_eq s c d1 steps1 h1,
    run_intersections_eq s c d2 steps2 h2, hdt]

/-- C3 witness: one forced-red step versus one normal step from the startup
city, same wall clock (2 s) and dt (1). -/
theorem C3_witness :
    ((initial_city.update test_screen 2 1 true).intersections =
      (initial_city.update test_screen 2 1 false).intersections) :=
  (C3_force_red_preserves_lights test_screen initial_city
    (initial_city.update test_screen 2 1 true)
    (initial_city.update test_screen 2 1 false)
    [(2, 1, true)] [(2, 1, false)]
    (CityRun.step _ _ _ _ _ _ (CityRun.nil _))
    (CityRun.step _ _ _ _ _ _ (CityRun.nil _)) rfl).2

/-- C5 (amended): a light with positive remaining time fires no transition
under dt ≤ 0 — its state is unchanged and its timer stays positive (it
grows by −dt), so no negative duration arises — and a car's position is
unchanged under dt = 0; for dt < 0 a non-stopped car is displaced against
its direction of travel (see the counterexample). -/
theorem C5_no_advancement (l : TrafficLight) (dt : ℚ) (s : Screen)
    (car : Car) (ht : 0 < l.time_in_state) (hdt : dt ≤ 0) :
    (l.update dt).state = l.state ∧
    (l.update dt).time_in_state = l.time_in_state - dt ∧
    0 < (l.update dt).time_in_state ∧
    move_car s car 0 = car := by
  have hcond : ¬(l.time_in_state - dt ≤ 0) := by linarith
  have hmove : move_car s car 0 = car := by
    cases hc : car.direction <;>
      simp [move_car, hc] <;> cases car <;> simp_all
  refine ⟨?_, ?_, ?_, hmove⟩ <;> simp [TrafficLight.update, hcond]
  linarith

/-- C5 witness: the Green(3) light under dt = −1 and `car_mid` under
dt = 0. -/
theorem C5_witness :
    (test_light.update (-1)).state = test_light.state ∧
    (test_light.update (-1)).time_in_state =
      test_light.time_in_state - (-1) ∧
    0 < (test_light.update (-1)).time_in_state ∧
    move_car test_screen car_mid 0 = car_mid :=
  C5_no_advancement test_light (-1) test_screen car_mid
    (by with_unfolding_all decide) (by norm_num)

/-- C6 (amended): replay determinism holds once the spawner's wall-clock
readings are part of the replayed inputs.  Two runs from the same state
executing the same sequence of (wall-clock, dt, flag) steps — the random
source being part of the state — end with identical car pools. -/
theorem C6_replay_determinism (s : Screen) (c d1 d2 : City)
    (steps : List (ℚ × ℚ × Bool))
    (h1 : CityRun s c steps d1) (h2 : CityRun s c steps d2) :
    d1.cars = d2.cars := by
  induction h1 generalizing d2 with
  | nil c0 => cases h2 with | nil => rfl
  | step c0 now dt b rest d0 hrest ih =>
    cases h2 with
    | step _ _ _ _ _ _ h' => exact ih _ h'

/-- C6 witness: two identical one-step runs from the startup city. -/
theorem C6_witness :
    (initial_city.update test_screen 2 (1/100) false).cars =
      (initial_city.update test_screen 2 (1/100) false).cars :=
  C6_replay_determinism test_screen initial_city
    (initial_city.update test_screen 2 (1/100) false)
    (initial_city.update test_screen 2 (1/100) false)
    [(2, 1/100, false)]
    (CityRun.step _ _ _ _ _ _ (CityRun.nil _))
    (CityRun.step _ _ _ _ _ _ (CityRun.nil _))

/-- C4 (amended): for a not-in-intersection car laterally aligned with an
intersection (offset < LANE_TOLERANCE = 20), when the distance ahead lies
strictly inside (STOP_DISTANCE_MIN, STOP_DISTANCE_MAX) = (30, 80) the check
stops the car exactly when the light is Red (0) or Yellow (1); at a
distance ahead of at most STOP_DISTANCE_MIN the check never stops it,
whatever the light state. -/
theorem C4_stop_window (s : Screen) (car : Car) (int_x int_y : ℚ)
    (light_state : ℕ) (hin : car.in_intersection = false)
    (hlat : lateral_offset s car int_x int_y < LANE_TOLERANCE) :
    (STOP_DISTANCE_MIN < along_distance s car int_x int_y ∧
        along_distance s car int_x int_y < STOP_DISTANCE_MAX →
      (check_traffic_light_at_intersection s car int_x int_y light_state =
          true ↔ light_state = 0 ∨ light_state = 1)) ∧
    (0 < along_distance s car int_x int_y ∧
        along_distance s car int_x int_y ≤ STOP_DISTANCE_MIN →
      check_traffic_light_at_intersection s car int_x int_y light_state =
        false) := by
  cases hd : car.direction <;>
    simp only [check_traffic_light_at_intersection, along_distance,
      lateral_offset, Car.x, Car.y, hd, hin, Bool.false_eq_true, if_false,
      STOP_DISTANCE_MIN, STOP_DISTANCE_MAX, LANE_TOLERANCE,
      gt_iff_lt] at hlat ⊢ <;>
    refine ⟨fun h => ?_, fun h => ?_⟩
  case Down.refine_1 =>
    rw [if_pos ⟨hlat, by linarith [h.1]⟩, if_pos ⟨h.1, h.2⟩]
    simp
  case Down.refine_2 =>
    rw [if_pos ⟨hlat, by linarith [h.1]⟩,
      if_neg (fun hc => by linarith [hc.1, h.2])]
  case Right.refine_1 =>
    rw [if_pos ⟨hlat, by linarith [h.1]⟩, if_pos ⟨h.1, h.2⟩]
    simp
  case Right.refine_2 =>
    rw [if_pos ⟨hlat, by linarith [h.1]⟩,
      if_neg (fun hc => by linarith [hc.1, h.2])]
  case Up.refine_1 =>
    rw [if_pos ⟨hlat, by linarith [h.1]⟩, if_pos ⟨h.1, h.2⟩]
    simp
  case Up.refine_2 =>
    rw [if_pos ⟨hlat, by linarith [h.1]⟩,
      if_neg (fun hc => by linarith [hc.1, h.2])]
  case Left.refine_1 =>
    rw [if_pos ⟨hlat, by linarith [h.1]⟩, if_pos ⟨h.1, h.2⟩]
    simp
  case Left.refine_2 =>
    rw [if_pos ⟨hlat, by linarith [h.1]⟩,
      if_neg (fun hc => by linarith [hc.1, h.2])]

/-- C4 witness: `car_at_50`, 50 px before (50, 50) and laterally aligned,
with the light Red, is told to stop. -/
theorem C4_witness :
    check_traffic_light_at_intersection test_screen car_at_50 50 50 0 =
      true := by
  have h := C4_stop_window test_screen car_at_50 50 50 0 rfl
    (by with_unfolding_all decide)
  exact (h.1 (by with_unfolding_all decide)).mpr (Or.inl rfl)

/-- An in-bounds `getD` lookup is a member of the list. -/
theorem getD_mem_of_lt {α : Type} (l : List α) (i : ℕ) (d : α)
    (h : i < l.length) : l.getD i d ∈ l := by
  induction l generalizing i with
  | nil => exact absurd h (by simp)
  | cons a t ih =>
    cases i with
    | zero => simp
    | succ n =>
      simp only [List.getD_cons_succ]
      exact List.mem_cons_of_mem _ (ih n (by simpa using h))

/-- C7: an executed turn puts the car directly in the left-hand-traffic lane
of its new direction: the off-axis coordinate becomes the intersection
centre offset by LANE_OFFSET with the sign given by the new direction
(`lane_coord`) — and every spawned car's off-axis coordinate obeys the same
`lane_coord` rule relative to its road's centreline. -/
theorem C7_turn_lane_legality (s : Screen) (rng : Rng) (car : Car)
    (i : Intersection) (d : Direction) (hturn : car.next_turn = some d)
    (hjust : car.just_turned = false) :
    ((handle_car_turn s rng car i true).2.2 = true ∧
     (handle_car_turn s rng car i true).1.direction = d ∧
     off_axis_coord (handle_car_turn s rng car i true).1 =
       lane_coord s d
         (match d with
          | Direction.Down | Direction.Up => i.x_percent
          | Direction.Right | Direction.Left => i.y_percent)) ∧
    ∀ (rng0 : Rng) (cars0 : List Car), ∃ new_car center,
      (spawn_car s rng0 cars0).1 = cars0 ++ [new_car] ∧
      (center ∈ VERTICAL_ROAD_POSITIONS ∨
        center ∈ HORIZONTAL_ROAD_POSITIONS) ∧
      off_axis_coord new_car = lane_coord s new_car.direction center := by
  constructor
  · cases d <;>
      simp [handle_car_turn, hturn, hjust, off_axis_coord, lane_coord]
  · intro rng0 cars0
    by_cases hv : rng0.nat_draws rng0.counter 2 % 2 = 0
    · by_cases hg :
          rng0.nat_draws (rng0.counter + 1 + 1 + 1) 2 % 2 = 0 <;>
      · simp only [spawn_car, Rng.gen_range_nat, Rng.gen_range_unit, hv, hg,
          if_true, if_false, reduceIte]
        refine ⟨_, VERTICAL_ROAD_POSITIONS.getD
          (rng0.nat_draws (rng0.counter + 1 + 1)
            VERTICAL_ROAD_POSITIONS.length %
              VERTICAL_ROAD_POSITIONS.length) 0, rfl,
          Or.inl (getD_mem_of_lt _ _ _
            (Nat.mod_lt _ (by simp [VERTICAL_ROAD_POSITIONS]))), ?_⟩
        simp [off_axis_coord, lane_coord]
    · by_cases hg :
          rng0.nat_draws (rng0.counter + 1 + 1 + 1) 2 % 2 = 0 <;>
      · simp only [spawn_car, Rng.gen_range_nat, Rng.gen_range_unit, hv, hg,
          if_true, if_false, reduceIte]
        refine ⟨_, HORIZONTAL_ROAD_POSITIONS.getD
          (rng0.nat_draws (rng0.counter + 1 + 1)
            HORIZONTAL_ROAD_POSITIONS.length %
              HORIZONTAL_ROAD_POSITIONS.length) 0, rfl,
          Or.inr (getD_mem_of_lt _ _ _
            (Nat.mod_lt _ (by simp [HORIZONTAL_ROAD_POSITIONS]))), ?_⟩
        simp [off_axis_coord, lane_coord]

/-- C7 witness: `car_turn_left` turning Left at `far_intersection`:
afterwards it heads Left with y = centre − LANE_OFFSET/height. -/
theorem C7_witness :
    (handle_car_turn test_screen zero_rng car_turn_left far_intersection
      true).1.direction = Direction.Left ∧
    off_axis_coord (handle_car_turn test_screen zero_rng car_turn_left
      far_intersection true).1 =
      lane_coord test_screen Direction.Left far_intersection.y_percent := by
  have h := C7_turn_lane_legality test_screen zero_rng car_turn_left
    far_intersection Direction.Left rfl rfl
  exact ⟨h.1.2.1, h.1.2.2⟩

/-- C8: `update_cars` retains exactly the stepped cars that pass
`is_car_on_screen` — the retain test is the only deletion path — so every
car still in the pool after the update lies strictly inside the
(−0.1, 1.1) viewport margin in both coordinates. -/
theorem C8_despawn_boundary (s : Screen) (rng : Rng) (cars : List Car)
    (intersections : List Intersection) (dt : ℚ) (all_lights_red : Bool) :
    (update_cars s rng cars intersections dt all_lights_red).1 =
      (step_cars s intersections dt all_lights_red cars rng cars).1.filter
        (fun car => is_car_on_screen car) ∧
    ∀ car ∈ (update_cars s rng cars intersections dt all_lights_red).1,
      -1/10 < car.x_percent ∧ car.x_percent < 11/10 ∧
        -1/10 < car.y_percent ∧ car.y_percent < 11/10 := by
  refine ⟨rfl, ?_⟩
  intro car hmem
  have hmem2 : car ∈
      (step_cars s intersections dt all_lights_red cars rng cars).1.filter
        (fun car => is_car_on_screen car) := hmem
  have hscr := List.of_mem_filter hmem2
  simpa [is_car_on_screen] using hscr

/-- C8 witness: a lone mid-screen car survives an update and its retained
position is inside the margin. -/
theorem C8_witness :
    -1/10 < car_mid.x_percent ∧ car_mid.x_percent < 11/10 ∧
      -1/10 < car_mid.y_percent ∧ car_mid.y_percent < 11/10 :=
  (C8_despawn_boundary test_screen zero_rng [car_mid] [] 0 false).2 car_mid
    (by with_unfolding_all decide)

/-- Splicing a coincident same-direction copy of the checking car into the
snapshot does not change `check_car_collision_loop`: the copy's gap is 0,
failing the strict positivity test, and it is not opposite-direction. -/
theorem collision_loop_splice (s : Screen) (car copy : Car) (ys : List Car)
    (hx : copy.x_percent = car.x_percent)
    (hy : copy.y_percent = car.y_percent)
    (hd : copy.direction = car.direction) (xs : List Car) :
    check_car_collision_loop s car (xs ++ copy :: ys) =
      check_car_collision_loop s car (xs ++ ys) := by
  induction xs with
  | nil =>
    simp only [List.nil_append]
    rw [check_car_collision_loop]
    by_cases hin : copy.in_intersection
    · simp [hin]
    · have hxx : copy.x s = car.x s := by simp [Car.x, hx]
      have hyy : copy.y s = car.y s := by simp [Car.y, hy]
      cases hdir : car.direction <;>
        simp [hin, hxx, hyy, hd, hdir, is_opposite_direction]
  | cons o xs ih =>
    simp only [List.cons_append, check_car_collision_loop, List.append_eq]
    rw [ih]

/-- Splicing a car that is outside the capture radius of the queried
intersection into the snapshot does not change
`check_intersection_occupied`. -/
theorem occupied_splice (s : Screen) (int_x int_y : ℚ) (copy : Car)
    (hfar : ¬((copy.x s - int_x) ^ 2 + (copy.y s - int_y) ^ 2 <
      INTERSECTION_RADIUS ^ 2)) (xs ys : List Car) :
    check_intersection_occupied s int_x int_y (xs ++ copy :: ys) =
      check_intersection_occupied s int_x int_y (xs ++ ys) := by
  simp [check_intersection_occupied, List.any_append, hfar]

/-- C10: the car's own snapshot copy never affects `should_car_stop`.  For a
car whose position and direction are unchanged since the snapshot, and whose
`in_intersection` flag is consistent with the intersections (set whenever the
car is within a capture radius — established by `update_car_at_intersection`
before `should_car_stop` runs), the stop decision with the copy spliced into
the snapshot equals the decision without it: the copy's following gap is 0
and fails the strict test, and the occupancy check is either skipped
(`in_intersection`) or cannot see the copy (outside every radius). -/
theorem C10_self_copy_harmless (s : Screen) (car copy : Car)
    (intersections : List Intersection) (xs ys : List Car) (b : Bool)
    (hx : copy.x_percent = car.x_percent)
    (hy : copy.y_percent = car.y_percent)
    (hd : copy.direction = car.direction)
    (hcons : car.in_intersection = false → ∀ i ∈ intersections,
      ¬((car.x s - i.x s) ^ 2 + (car.y s - i.y s) ^ 2 <
        INTERSECTION_RADIUS ^ 2)) :
    should_car_stop s car intersections (xs ++ copy :: ys) b =
      should_car_stop s car intersections (xs ++ ys) b := by
  have hcoll : check_car_collision s car (xs ++ copy :: ys) =
      check_car_collision s car (xs ++ ys) := by
    unfold check_car_collision
    by_cases hin : car.in_intersection
    · simp [hin]
    · simp [hin, collision_loop_splice s car copy ys hx hy hd xs]
  show should_car_stop_loop s car _ b intersections =
    should_car_stop_loop s car _ b intersections
  induction intersections with
  | nil => exact hcoll
  | cons i rest ih =>
    have hrec := ih (fun h j hj => hcons h j (List.mem_cons_of_mem _ hj))
    rw [should_car_stop_loop, should_car_stop_loop]
    cases hin : car.in_intersection
    · have hxx : copy.x s = car.x s := by simp [Car.x, hx]
      have hyy : copy.y s = car.y s := by simp [Car.y, hy]
      have hocc := occupied_splice s (i.x s) (i.y s) copy
        (by rw [hxx, hyy]; exact hcons hin i (List.mem_cons_self _ _)) xs ys
      rw [hocc, hrec]
    · simp [hin, hrec]

/-- C10 witness: `car_at_30` against its own copy, with `far_intersection`
55 px away. -/
theorem C10_witness :
    should_car_stop test_screen car_at_30 [far_intersection]
      [car_at_30] false =
      should_car_stop test_screen car_at_30 [far_intersection] [] false :=
  C10_self_copy_harmless test_screen car_at_30 car_at_30 [far_intersection]
    [] [] false rfl rfl rfl (by with_unfolding_all decide)

end CityDashboard
